import Mathlib

/-!
Verification development for the BHSI corporate-risk traffic-light frontend.

The definitions below are a shallow embedding of the conversion and display
logic found in the repository:

* `convertSearchResponse`, `highRiskCount`, `mediumRiskCount`, `overallVerdict`
  embed the conversion logic of `testDataConversion`
  (src/bhsi-frontend/src/pages/LandingPage.tsx, integration-test page).
* `riskLevelColorMap` / `riskLevelColor` embed the risk-level → MUI colour
  lookup of `TrafficLightResult.tsx.backup` (object lookup with `|| "default"`).
* `countStarting` embeds the `startsWith`-based High/Medium/Low chips.
* `clickRetry` and friends embed the retry-counter state of the management
  summary button (`handleRetrySummary`, `disabled={retryCount >= 3}`).
* `displayOf` embeds the component's top-level branch on `hasSearchResults`.
* The `Severity`/`Category` aggregator and the embedding-cache transition
  system are modelled from the spec where the backend code is absent from
  the sources; each such definition says so in its doc comment.
-/

/-- Models JavaScript `String.prototype.startsWith` at the character-list
level: `charsStart s p` is true when `p` is an initial segment of `s`. -/
def charsStart : List Char → List Char → Bool
  | _, [] => true
  | [], _ :: _ => false
  | c :: cs, d :: ds => c == d && charsStart cs ds

/-- String-level wrapper for `charsStart`, used wherever the source calls
`risk_level.startsWith(...)`. -/
def strStartsWith (s p : String) : Bool :=
  charsStart s.data p.data

/-- One entry of the backend search response's `results` array
(`SearchResultItem` in TrafficLightResult.tsx.backup). -/
structure SearchResult where
  source : String
  date : String
  title : String
  risk_level : String
  confidence : ℚ
  url : String
deriving DecidableEq

/-- The backend search response fields the frontend conversion reads
(`company_name`, `search_date`, `results`). -/
structure SearchResponse where
  company_name : String
  search_date : String
  results : List SearchResult
deriving DecidableEq

/-- Embeds `highRiskCount` of `testDataConversion`: results whose
`risk_level` is exactly "High-Legal" or "High-Financial". -/
def highRiskCount (rs : List SearchResult) : Nat :=
  (rs.filter (fun r =>
    r.risk_level == "High-Legal" || r.risk_level == "High-Financial")).length

/-- Embeds `mediumRiskCount` of `testDataConversion`: results whose
`risk_level` is exactly "Medium-Legal" or "Medium-Financial". -/
def mediumRiskCount (rs : List SearchResult) : Nat :=
  (rs.filter (fun r =>
    r.risk_level == "Medium-Legal" || r.risk_level == "Medium-Financial")).length

/-- Embeds the `overall` computation of `testDataConversion`:
"red" when `highRiskCount > 0`, else "orange" when `mediumRiskCount > 0`,
else "green". -/
def overallVerdict (rs : List SearchResult) : String :=
  if highRiskCount rs > 0 then "red"
  else if mediumRiskCount rs > 0 then "orange"
  else "green"

/-- The `blocks` object of the converted frontend result. -/
structure Blocks where
  turnover : String
  shareholding : String
  bankruptcy : String
  legal : String
deriving DecidableEq

/-- The converted frontend result built by `testDataConversion`. -/
structure ConvertedResult where
  company : String
  vat : String
  overall : String
  blocks : Blocks
  searchResults : SearchResponse
deriving DecidableEq

/-- Embeds the `convertedResult` construction of `testDataConversion`:
`vat` is the literal "N/A" and every block is the literal "green". -/
def convertSearchResponse (resp : SearchResponse) : ConvertedResult :=
  { company := resp.company_name
    vat := "N/A"
    overall := overallVerdict resp.results
    blocks :=
      { turnover := "green"
        shareholding := "green"
        bankruptcy := "green"
        legal := "green" }
    searchResults := resp }

/-- The mock backend response hard-coded in `testDataConversion`. -/
def mockSearchResponse : SearchResponse :=
  { company_name := "Banco Santander"
    search_date := "2025-07-03T00:31:39Z"
    results :=
      [ { source := "RSS-EXPANSION"
          date := "2025-07-02T01:17:07+02:00Z"
          title := "Santander busca sinergias"
          risk_level := "Low-Legal"
          confidence := 0.82
          url := "https://example.com/article1" }
      , { source := "News"
          date := "2025-07-02T00:13:35Z"
          title := "Unlocked AI, Finvero y Tuiio Santander"
          risk_level := "No-Legal"
          confidence := 0.8
          url := "https://example.com/article2" } ] }

/-- Membership characterisation of a positive `highRiskCount`. -/
lemma highRiskCount_pos_iff (rs : List SearchResult) :
    0 < highRiskCount rs ↔
      ∃ r ∈ rs, r.risk_level = "High-Legal" ∨ r.risk_level = "High-Financial" := by
  unfold highRiskCount
  rw [List.length_pos]
  constructor
  · intro h
    rcases List.exists_mem_of_ne_nil _ h with ⟨r, hr⟩
    have := List.mem_filter.mp hr
    refine ⟨r, this.1, ?_⟩
    have hb := this.2
    simp only [Bool.or_eq_true, beq_iff_eq] at hb
    exact hb
  · rintro ⟨r, hr, hcase⟩
    intro hnil
    have : r ∈ (rs.filter (fun r =>
        r.risk_level == "High-Legal" || r.risk_level == "High-Financial")) := by
      refine List.mem_filter.mpr ⟨hr, ?_⟩
      simp only [Bool.or_eq_true, beq_iff_eq]
      exact hcase
    rw [hnil] at this
    exact absurd this (List.not_mem_nil r)

/-- Membership characterisation of a positive `mediumRiskCount`. -/
lemma mediumRiskCount_pos_iff (rs : List SearchResult) :
    0 < mediumRiskCount rs ↔
      ∃ r ∈ rs, r.risk_level = "Medium-Legal" ∨ r.risk_level = "Medium-Financial" := by
  unfold mediumRiskCount
  rw [List.length_pos]
  constructor
  · intro h
    rcases List.exists_mem_of_ne_nil _ h with ⟨r, hr⟩
    have := List.mem_filter.mp hr
    refine ⟨r, this.1, ?_⟩
    have hb := this.2
    simp only [Bool.or_eq_true, beq_iff_eq] at hb
    exact hb
  · rintro ⟨r, hr, hcase⟩
    intro hnil
    have : r ∈ (rs.filter (fun r =>
        r.risk_level == "Medium-Legal" || r.risk_level == "Medium-Financial")) := by
      refine List.mem_filter.mpr ⟨hr, ?_⟩
      simp only [Bool.or_eq_true, beq_iff_eq]
      exact hcase
    rw [hnil] at this
    exact absurd this (List.not_mem_nil r)

/-- A backend response holding a single result whose severity is High in a
category other than Legal or Financial. -/
def respHighRegulatory : SearchResponse :=
  { company_name := "ExampleCo"
    search_date := "2025-07-03T00:00:00Z"
    results :=
      [ { source := "BOE"
          date := "2025-07-01T00:00:00Z"
          title := "Sanction notice"
          risk_level := "High-Regulatory"
          confidence := 0.95
          url := "https://example.com/boe1" } ] }

/-- C1 counterexample: a response containing a result of High severity (in the
Regulatory category) converts to overall "green", not "red", even though the
result's `risk_level` starts with "High" — the conversion only tests the exact
strings "High-Legal" and "High-Financial". -/
theorem c1_overall_not_max_counterexample :
    (∃ r ∈ respHighRegulatory.results, strStartsWith r.risk_level "High" = true) ∧
      (convertSearchResponse respHighRegulatory).overall = "green" ∧
      (convertSearchResponse respHighRegulatory).overall ≠ "red" := by
  refine ⟨⟨_, List.mem_cons_self _ [], ?_⟩, ?_, ?_⟩ <;> decide

/-- C1 amended: the overall verdict is "red" exactly when some result's
`risk_level` is the exact string "High-Legal" or "High-Financial"; it is
"orange" exactly when no such result exists but some result is exactly
"Medium-Legal" or "Medium-Financial"; and it is "green" exactly when neither
kind of result exists. High or Medium severities in any other category do not
affect the verdict. -/
theorem c1_overall_verdict_characterisation (resp : SearchResponse) :
    ((convertSearchResponse resp).overall = "red" ↔
      ∃ r ∈ resp.results,
        r.risk_level = "High-Legal" ∨ r.risk_level = "High-Financial") ∧
    ((convertSearchResponse resp).overall = "orange" ↔
      (¬ ∃ r ∈ resp.results,
        r.risk_level = "High-Legal" ∨ r.risk_level = "High-Financial") ∧
      ∃ r ∈ resp.results,
        r.risk_level = "Medium-Legal" ∨ r.risk_level = "Medium-Financial") ∧
    ((convertSearchResponse resp).overall = "green" ↔
      (¬ ∃ r ∈ resp.results,
        r.risk_level = "High-Legal" ∨ r.risk_level = "High-Financial") ∧
      ¬ ∃ r ∈ resp.results,
        r.risk_level = "Medium-Legal" ∨ r.risk_level = "Medium-Financial") := by
  have hov : (convertSearchResponse resp).overall = overallVerdict resp.results := rfl
  rw [hov]
  unfold overallVerdict
  by_cases hH : 0 < highRiskCount resp.results
  · have hH' := (highRiskCount_pos_iff resp.results).mp hH
    rw [if_pos hH]
    refine ⟨⟨fun _ => hH', fun _ => rfl⟩, ?_, ?_⟩
    · constructor
      · intro h; exact absurd h (by decide)
      · rintro ⟨hno, _⟩; exact absurd hH' hno
    · constructor
      · intro h; exact absurd h (by decide)
      · rintro ⟨hno, _⟩; exact absurd hH' hno
  · have hHn : ¬ ∃ r ∈ resp.results,
        r.risk_level = "High-Legal" ∨ r.risk_level = "High-Financial" := by
      intro hx
      exact hH ((highRiskCount_pos_iff resp.results).mpr hx)
    rw [if_neg hH]
    by_cases hM : 0 < mediumRiskCount resp.results
    · have hM' := (mediumRiskCount_pos_iff resp.results).mp hM
      rw [if_pos hM]
      refine ⟨?_, ⟨fun _ => ⟨hHn, hM'⟩, fun _ => rfl⟩, ?_⟩
      · constructor
        · intro h; exact absurd h (by decide)
        · intro hx; exact absurd hx hHn
      · constructor
        · intro h; exact absurd h (by decide)
        · rintro ⟨_, hno⟩; exact absurd hM' hno
    · have hMn : ¬ ∃ r ∈ resp.results,
          r.risk_level = "Medium-Legal" ∨ r.risk_level = "Medium-Financial" := by
        intro hx
        exact hM ((mediumRiskCount_pos_iff resp.results).mpr hx)
      rw [if_neg hM]
      refine ⟨?_, ?_, ⟨fun _ => ⟨hHn, hMn⟩, fun _ => rfl⟩⟩
      · constructor
        · intro h; exact absurd h (by decide)
        · intro hx; exact absurd hx hHn
      · constructor
        · intro h; exact absurd h (by decide)
        · rintro ⟨_, hx⟩; exact absurd hx hMn

/-- Embeds `riskLevelColorMap` of TrafficLightResult.tsx.backup as an
association list; the JS object literal maps risk-level strings to MUI chip
colours. -/
def riskLevelColorMap : List (String × String) :=
  [ ("Low-Other", "success")
  , ("Low-Regulatory", "success")
  , ("Low-Legal", "success")
  , ("Low-Financial", "success")
  , ("Low-Operational", "success")
  , ("Medium-Economic", "warning")
  , ("Medium-Tax", "warning")
  , ("Medium-Legal", "warning")
  , ("Medium-Financial", "warning")
  , ("Medium-Regulatory", "warning")
  , ("Medium-Operational", "warning")
  , ("High-Legal", "error")
  , ("High-Financial", "error")
  , ("High-Regulatory", "error")
  , ("High-Operational", "error")
  , ("Unknown", "default") ]

/-- Embeds the chip-colour expression
`riskLevelColorMap[item.risk_level] || "default"` of TrafficLightResult:
an object lookup falling back to the "default" bucket. -/
def riskLevelColor (level : String) : String :=
  match riskLevelColorMap.lookup level with
  | some c => c
  | none => "default"

/-- Values produced by an association-list lookup are values of the list. -/
lemma lookup_mem_values (l : List (String × String)) (k c : String)
    (h : l.lookup k = some c) : c ∈ l.map Prod.snd := by
  induction l with
  | nil => simp [List.lookup] at h
  | cons p l ih =>
    rw [List.lookup] at h
    cases hk : (k == p.1) with
    | true =>
      rw [hk] at h
      simp only [List.map_cons, List.mem_cons]
      exact Or.inl (Option.some.inj h).symm
    | false =>
      rw [hk] at h
      simp only [List.map_cons, List.mem_cons]
      exact Or.inr (ih h)

/-- C2 counterexample: the taxonomy category Tax has a High label, but
"High-Tax" is absent from `riskLevelColorMap`, so its chip colour is the
"default" bucket, not the red/"error" bucket; likewise "Low-Tax" is not in
the green/"success" bucket. -/
theorem c2_high_low_bucket_counterexample :
    riskLevelColor "High-Tax" = "default" ∧ riskLevelColor "High-Tax" ≠ "error" ∧
      riskLevelColor "Low-Tax" = "default" ∧ riskLevelColor "Low-Tax" ≠ "success" := by
  refine ⟨?_, ?_, ?_, ?_⟩ <;> decide

/-- C2 amended: a "High-<Category>" label lands in the red/"error" bucket
exactly for the categories Legal, Financial, Regulatory and Operational, and a
"Low-<Category>" label lands in the green/"success" bucket exactly for the
categories Other, Regulatory, Legal, Financial and Operational; the remaining
combinations of the seven-category taxonomy ("High-Tax", "High-Economic",
"High-Other", "Low-Tax", "Low-Economic") fall through to the "default"
bucket. -/
theorem c2_high_low_bucket_mapping :
    riskLevelColor "High-Legal" = "error" ∧
    riskLevelColor "High-Financial" = "error" ∧
    riskLevelColor "High-Regulatory" = "error" ∧
    riskLevelColor "High-Operational" = "error" ∧
    riskLevelColor "Low-Other" = "success" ∧
    riskLevelColor "Low-Regulatory" = "success" ∧
    riskLevelColor "Low-Legal" = "success" ∧
    riskLevelColor "Low-Financial" = "success" ∧
    riskLevelColor "Low-Operational" = "success" ∧
    riskLevelColor "High-Tax" = "default" ∧
    riskLevelColor "High-Economic" = "default" ∧
    riskLevelColor "High-Other" = "default" ∧
    riskLevelColor "Low-Tax" = "default" ∧
    riskLevelColor "Low-Economic" = "default" := by
  decide

/-- C4: the chip-colour lookup is total — every input string is mapped to one
of the four MUI buckets — and any string that is not a key of
`riskLevelColorMap` (for example "No-Legal") is mapped to the "default"
bucket; the explicit "Unknown" key is also mapped to "default". -/
theorem c4_unrecognized_risk_level_total (level : String) :
    (riskLevelColor level = "success" ∨ riskLevelColor level = "warning" ∨
      riskLevelColor level = "error" ∨ riskLevelColor level = "default") ∧
    (riskLevelColorMap.lookup level = none → riskLevelColor level = "default") ∧
    riskLevelColor "Unknown" = "default" := by
  refine ⟨?_, ?_, by decide⟩
  · unfold riskLevelColor
    cases h : riskLevelColorMap.lookup level with
    | none => simp
    | some c =>
      have hc := lookup_mem_values riskLevelColorMap level c h
      simp only [riskLevelColorMap, List.map_cons, List.map_nil, List.mem_cons,
        List.not_mem_nil, or_false] at hc
      rcases hc with rfl | rfl | rfl | rfl | rfl | rfl | rfl | rfl | rfl | rfl |
        rfl | rfl | rfl | rfl | rfl | rfl <;> simp
  · intro h
    unfold riskLevelColor
    rw [h]

/-- C4 witness: the unrecognized label "No-Legal" from the mock backend
response is not a key of the map and lands in the "default" bucket. -/
theorem c4_unrecognized_risk_level_total_witness :
    (riskLevelColor "No-Legal" = "success" ∨ riskLevelColor "No-Legal" = "warning" ∨
      riskLevelColor "No-Legal" = "error" ∨ riskLevelColor "No-Legal" = "default") ∧
    riskLevelColor "No-Legal" = "default" := by
  have h := c4_unrecognized_risk_level_total "No-Legal"
  exact ⟨h.1, h.2.1 (by decide)⟩

/-- C9: the converted frontend result fixes `vat` to "N/A" and every block of
the Detailed Parameters table ("turnover", "shareholding", "bankruptcy",
"legal") to "green", for every backend response — so these fields never
reflect the classified signals. -/
theorem c9_fixed_vat_and_blocks (resp : SearchResponse) :
    (convertSearchResponse resp).vat = "N/A" ∧
    (convertSearchResponse resp).blocks =
      { turnover := "green", shareholding := "green",
        bankruptcy := "green", legal := "green" } ∧
    ∀ resp' : SearchResponse,
      (convertSearchResponse resp).blocks = (convertSearchResponse resp').blocks ∧
      (convertSearchResponse resp).vat = (convertSearchResponse resp').vat :=
  ⟨rfl, rfl, fun _ => ⟨rfl, rfl⟩⟩

/-- Embeds the High/Medium/Low chip counters of `TrafficLightResult`, each of
which filters `searchResults` by `risk_level.startsWith(...)` and takes the
length. -/
def countStarting (p : String) (rs : List SearchResult) : Nat :=
  (rs.filter (fun r => strStartsWith r.risk_level p)).length

/-- Two character-list patterns matched against the same list agree on their
first characters. -/
lemma charsStart_head_eq {l t₁ t₂ : List Char} {a b : Char}
    (h₁ : charsStart l (a :: t₁) = true) (h₂ : charsStart l (b :: t₂) = true) :
    a = b := by
  cases l with
  | nil => simp [charsStart] at h₁
  | cons c cs =>
    rw [charsStart] at h₁ h₂
    simp only [Bool.and_eq_true, beq_iff_eq] at h₁ h₂
    exact h₁.1.symm.trans h₂.1

/-- A string cannot start with both "High" and "Medium". -/
lemma not_high_medium (s : String) (h₁ : strStartsWith s "High" = true)
    (h₂ : strStartsWith s "Medium" = true) : False := by
  unfold strStartsWith at h₁ h₂
  rw [show "High".data = ['H', 'i', 'g', 'h'] from rfl] at h₁
  rw [show "Medium".data = ['M', 'e', 'd', 'i', 'u', 'm'] from rfl] at h₂
  exact absurd (charsStart_head_eq h₁ h₂) (by decide)

/-- A string cannot start with both "High" and "Low". -/
lemma not_high_low (s : String) (h₁ : strStartsWith s "High" = true)
    (h₂ : strStartsWith s "Low" = true) : False := by
  unfold strStartsWith at h₁ h₂
  rw [show "High".data = ['H', 'i', 'g', 'h'] from rfl] at h₁
  rw [show "Low".data = ['L', 'o', 'w'] from rfl] at h₂
  exact absurd (charsStart_head_eq h₁ h₂) (by decide)

/-- A string cannot start with both "Medium" and "Low". -/
lemma not_medium_low (s : String) (h₁ : strStartsWith s "Medium" = true)
    (h₂ : strStartsWith s "Low" = true) : False := by
  unfold strStartsWith at h₁ h₂
  rw [show "Medium".data = ['M', 'e', 'd', 'i', 'u', 'm'] from rfl] at h₁
  rw [show "Low".data = ['L', 'o', 'w'] from rfl] at h₂
  exact absurd (charsStart_head_eq h₁ h₂) (by decide)

/-- Unfolding `countStarting` over a matching head element. -/
lemma countStarting_cons_pos (p : String) (r : SearchResult)
    (rs : List SearchResult) (h : strStartsWith r.risk_level p = true) :
    countStarting p (r :: rs) = countStarting p rs + 1 := by
  simp [countStarting, List.filter_cons, h]

/-- Unfolding `countStarting` over a non-matching head element. -/
lemma countStarting_cons_neg (p : String) (r : SearchResult)
    (rs : List SearchResult) (h : strStartsWith r.risk_level p = false) :
    countStarting p (r :: rs) = countStarting p rs := by
  simp [countStarting, List.filter_cons, h]

/-- C10: the three severity chips count by prefix match on `risk_level`; the
sum of the High/Medium/Low counts never exceeds the Total count, and equals it
exactly when every result's `risk_level` starts with "High", "Medium" or
"Low" — results such as "Unknown" or "No-Legal" are counted in the Total but
in none of the three severity counts. -/
theorem c10_severity_counts (rs : List SearchResult) :
    countStarting "High" rs + countStarting "Medium" rs + countStarting "Low" rs
        ≤ rs.length ∧
    (countStarting "High" rs + countStarting "Medium" rs + countStarting "Low" rs
        = rs.length ↔
      ∀ r ∈ rs, strStartsWith r.risk_level "High" = true ∨
        strStartsWith r.risk_level "Medium" = true ∨
        strStartsWith r.risk_level "Low" = true) := by
  induction rs with
  | nil => exact ⟨Nat.le_refl 0, by simp [countStarting]⟩
  | cons r rs ih =>
    rw [List.forall_mem_cons, List.length_cons]
    cases hH : strStartsWith r.risk_level "High" with
    | true =>
      have hM : strStartsWith r.risk_level "Medium" = false :=
        Bool.eq_false_iff.mpr (fun hm => not_high_medium r.risk_level hH hm)
      have hL : strStartsWith r.risk_level "Low" = false :=
        Bool.eq_false_iff.mpr (fun hl => not_high_low r.risk_level hH hl)
      rw [countStarting_cons_pos _ _ _ hH, countStarting_cons_neg _ _ _ hM,
        countStarting_cons_neg _ _ _ hL]
      have h1 := ih.1
      refine ⟨by omega, ?_, ?_⟩
      · intro h
        exact ⟨Or.inl rfl, ih.2.mp (by omega)⟩
      · rintro ⟨_, hall⟩
        have := ih.2.mpr hall
        omega
    | false =>
      cases hM : strStartsWith r.risk_level "Medium" with
      | true =>
        have hL : strStartsWith r.risk_level "Low" = false :=
          Bool.eq_false_iff.mpr (fun hl => not_medium_low r.risk_level hM hl)
        rw [countStarting_cons_neg _ _ _ hH, countStarting_cons_pos _ _ _ hM,
          countStarting_cons_neg _ _ _ hL]
        have h1 := ih.1
        refine ⟨by omega, ?_, ?_⟩
        · intro h
          exact ⟨Or.inr (Or.inl rfl), ih.2.mp (by omega)⟩
        · rintro ⟨_, hall⟩
          have := ih.2.mpr hall
          omega
      | false =>
        cases hL : strStartsWith r.risk_level "Low" with
        | true =>
          rw [countStarting_cons_neg _ _ _ hH, countStarting_cons_neg _ _ _ hM,
            countStarting_cons_pos _ _ _ hL]
          have h1 := ih.1
          refine ⟨by omega, ?_, ?_⟩
          · intro h
            exact ⟨Or.inr (Or.inr rfl), ih.2.mp (by omega)⟩
          · rintro ⟨_, hall⟩
            have := ih.2.mpr hall
            omega
        | false =>
          rw [countStarting_cons_neg _ _ _ hH, countStarting_cons_neg _ _ _ hM,
            countStarting_cons_neg _ _ _ hL]
          have h1 := ih.1
          refine ⟨by omega, ?_, ?_⟩
          · intro h
            exact absurd h (by omega)
          · rintro ⟨hr, _⟩
            rcases hr with h | h | h <;> exact absurd h (by decide)

/-- Embeds the management-summary retry state of `TrafficLightResult`:
`retryCount` is the component's `useState` counter, `invocations` counts the
`getManagementSummary` model calls made through the Retry button. -/
structure RetryState where
  retryCount : Nat
  invocations : Nat
deriving DecidableEq

/-- The component mounts with `retryCount` 0 and no retry invocations. -/
def initialRetryState : RetryState :=
  { retryCount := 0, invocations := 0 }

/-- Embeds the Retry button's `disabled={retryCount >= 3}` attribute. -/
def retryDisabled (s : RetryState) : Bool :=
  decide (3 ≤ s.retryCount)

/-- Embeds the Retry button's label: "Max retries reached" when
`retryCount >= 3`, otherwise "Retry". -/
def retryLabel (s : RetryState) : String :=
  if 3 ≤ s.retryCount then "Max retries reached" else "Retry"

/-- Embeds one user click on the Retry button: a disabled button ignores the
click, otherwise `handleRetrySummary` increments `retryCount` and performs one
`getManagementSummary` invocation. -/
def clickRetry (s : RetryState) : RetryState :=
  if retryDisabled s then s
  else { retryCount := s.retryCount + 1, invocations := s.invocations + 1 }

/-- Iterated Retry clicks. -/
def clickRetryN : Nat → RetryState → RetryState
  | 0, s => s
  | n + 1, s => clickRetryN n (clickRetry s)

/-- A single click preserves the retry invariant `invocations ≤ retryCount ≤ 3`. -/
lemma clickRetry_inv (s : RetryState)
    (h : s.invocations ≤ s.retryCount ∧ s.retryCount ≤ 3) :
    (clickRetry s).invocations ≤ (clickRetry s).retryCount ∧
      (clickRetry s).retryCount ≤ 3 := by
  by_cases h3 : 3 ≤ s.retryCount
  · have hs : clickRetry s = s := by
      simp [clickRetry, retryDisabled, h3]
    rw [hs]
    exact h
  · have hs : clickRetry s =
        { retryCount := s.retryCount + 1, invocations := s.invocations + 1 } := by
      simp [clickRetry, retryDisabled, h3]
    rw [hs]
    refine ⟨Nat.succ_le_succ h.1, ?_⟩
    show s.retryCount + 1 ≤ 3
    omega

/-- Iterated clicks preserve the retry invariant. -/
lemma clickRetryN_inv (n : Nat) (s : RetryState)
    (h : s.invocations ≤ s.retryCount ∧ s.retryCount ≤ 3) :
    (clickRetryN n s).invocations ≤ (clickRetryN n s).retryCount ∧
      (clickRetryN n s).retryCount ≤ 3 := by
  induction n generalizing s with
  | zero => exact h
  | succ n ih => exact ih (clickRetry s) (clickRetry_inv s h)

/-- C3: starting from the mounted component, any number of Retry clicks makes
at most 3 `getManagementSummary` invocations; once `retryCount` reaches 3 the
button is disabled with the label "Max retries reached" and a further click
leaves the state unchanged — no further model invocation happens. -/
theorem c3_retry_bounded (n : Nat) :
    (clickRetryN n initialRetryState).invocations ≤ 3 ∧
    ∀ s : RetryState, 3 ≤ s.retryCount →
      retryDisabled s = true ∧ retryLabel s = "Max retries reached" ∧
        clickRetry s = s := by
  constructor
  · have h := clickRetryN_inv n initialRetryState ⟨by decide, by decide⟩
    exact le_trans h.1 h.2
  · intro s h3
    refine ⟨?_, ?_, ?_⟩
    · simp [retryDisabled, h3]
    · simp [retryLabel, h3]
    · simp [clickRetry, retryDisabled, h3]

/-- C3 witness: after five clicks from the initial state at most 3 invocations
were made, and at `retryCount = 3` the button is disabled, labelled
"Max retries reached", and a click changes nothing. -/
theorem c3_retry_bounded_witness :
    (clickRetryN 5 initialRetryState).invocations ≤ 3 ∧
    (retryDisabled { retryCount := 3, invocations := 3 } = true ∧
      retryLabel { retryCount := 3, invocations := 3 } = "Max retries reached" ∧
      clickRetry { retryCount := 3, invocations := 3 } =
        { retryCount := 3, invocations := 3 }) :=
  ⟨(c3_retry_bounded 5).1,
    (c3_retry_bounded 5).2 { retryCount := 3, invocations := 3 } (by decide)⟩

/-- What the `TrafficLightResult` component renders at top level. -/
inductive DisplayCard where
  | noResultsCard : DisplayCard
  | profileCard : String → DisplayCard
deriving DecidableEq

/-- Embeds the component's top-level branch on `hasSearchResults`
(`searchResults.length > 0`): without results it renders the
"No results found" card, otherwise the risk-profile card for `overall`. -/
def displayOf (r : ConvertedResult) : DisplayCard :=
  if 0 < r.searchResults.results.length then DisplayCard.profileCard r.overall
  else DisplayCard.noResultsCard

/-- C6: an empty result set converts to an overall "green" verdict, and the
component renders the distinguished "No results found" card for it, which no
response with results ever produces — so the no-evidence state is
distinguishable from a verified-low (green with evidence) profile. -/
theorem c6_empty_gives_green_no_evidence (resp : SearchResponse)
    (h : resp.results = []) :
    (convertSearchResponse resp).overall = "green" ∧
    displayOf (convertSearchResponse resp) = DisplayCard.noResultsCard ∧
    ∀ resp' : SearchResponse, resp'.results ≠ [] →
      displayOf (convertSearchResponse resp') ≠ DisplayCard.noResultsCard := by
  refine ⟨?_, ?_, ?_⟩
  · show overallVerdict resp.results = "green"
    rw [h]
    decide
  · show displayOf (convertSearchResponse resp) = DisplayCard.noResultsCard
    unfold displayOf
    have hlen : (convertSearchResponse resp).searchResults.results.length = 0 := by
      show resp.results.length = 0
      rw [h]
      rfl
    rw [hlen]
    simp
  · intro resp' h'
    unfold displayOf
    have hlen : 0 < (convertSearchResponse resp').searchResults.results.length :=
      List.length_pos.mpr h'
    rw [if_pos hlen]
    intro hcontra
    exact DisplayCard.noConfusion hcontra

/-- An empty backend response. -/
def respEmpty : SearchResponse :=
  { company_name := "EmptyCo"
    search_date := "2025-07-03T00:00:00Z"
    results := [] }

/-- C6 witness: the empty response is rendered as the no-results card with a
"green" verdict, while the non-empty mock response is not rendered as the
no-results card. -/
theorem c6_empty_gives_green_no_evidence_witness :
    (convertSearchResponse respEmpty).overall = "green" ∧
    displayOf (convertSearchResponse respEmpty) = DisplayCard.noResultsCard ∧
    displayOf (convertSearchResponse mockSearchResponse) ≠
      DisplayCard.noResultsCard := by
  have h := c6_empty_gives_green_no_evidence respEmpty rfl
  exact ⟨h.1, h.2.1, h.2.2 mockSearchResponse (by decide)⟩

/-- The page state that `testDataConversion` mutates: the result slot it
writes (the `conversion-result` element), abstracted as the conversion it
displays. -/
structure PageState where
  conversionResultShown : Option ConvertedResult
deriving DecidableEq

/-- Embeds the `testDataConversion` handler with its ambient page state made
explicit: the handler computes the converted result from the response alone
and writes it into the page's result slot. -/
def testDataConversion (resp : SearchResponse) (_s : PageState) :
    ConvertedResult × PageState :=
  let conv := convertSearchResponse resp
  (conv, { conversionResultShown := some conv })

/-- C7: the conversion is a pure function of its input signals — its output
does not depend on the ambient page state, re-running it on identical input
(including after its own state write) yields an identical profile, and its
result is exactly `convertSearchResponse` of the input. -/
theorem c7_conversion_pure (resp : SearchResponse) (s₁ s₂ : PageState) :
    (testDataConversion resp s₁).1 = (testDataConversion resp s₂).1 ∧
    (testDataConversion resp (testDataConversion resp s₁).2).1 =
      (testDataConversion resp s₁).1 ∧
    (testDataConversion resp s₁).1 = convertSearchResponse resp :=
  ⟨rfl, rfl, rfl⟩

/-- Modelled from the spec: the `Severity` ordinal of the risk taxonomy
(spec §3, RiskLabel); the backend Aggregator implementation is absent from
the source files. -/
inductive Severity where
  | unknown : Severity
  | low : Severity
  | medium : Severity
  | high : Severity
deriving DecidableEq, BEq

/-- Modelled from the spec: the `Category` risk taxonomy (spec §3). -/
inductive Category where
  | legal : Category
  | financial : Category
  | regulatory : Category
  | operational : Category
  | tax : Category
  | economic : Category
  | other : Category
deriving DecidableEq, BEq

/-- Modelled from the spec: a classified signal as consumed by the Aggregator
(spec §4.3), with its category, severity and confidence. -/
structure ClassifiedSignal where
  category : Category
  severity : Severity
  confidence : ℚ

/-- Numeric rank of a severity under High > Medium > Low > Unknown. -/
def Severity.rank : Severity → Nat
  | .unknown => 0
  | .low => 1
  | .medium => 2
  | .high => 3

/-- Maximum of two severities under the spec ordering. -/
def sevMax (a b : Severity) : Severity :=
  if a.rank < b.rank then b else a

/-- Modelled from the spec: a category's severity is the maximum severity
among its signals (spec §4.3); a category without signals is `unknown`. -/
def categorySeverity (sigs : List ClassifiedSignal) (c : Category) : Severity :=
  ((sigs.filter (fun s => s.category == c)).map
    (fun s => s.severity)).foldl sevMax Severity.unknown

/-- The seven categories of the taxonomy. -/
def allCategories : List Category :=
  [ .legal, .financial, .regulatory, .operational, .tax, .economic, .other ]

/-- Modelled from the spec: `overall` is the maximum severity across
categories (spec §4.3). -/
def overallSeverity (sigs : List ClassifiedSignal) : Severity :=
  ((allCategories.map (categorySeverity sigs))).foldl sevMax Severity.unknown

/-- Modelled from the spec: the traffic-light mapping High→red,
Medium→orange, Low/Unknown→green (spec §4.3). -/
def trafficLightOf : Severity → String
  | .high => "red"
  | .medium => "orange"
  | _ => "green"

/-- The C5 scenario's signals: one High-Legal signal with confidence 0.9 and
one Low-Financial signal with confidence 0.7. -/
def signalsScenario : List ClassifiedSignal :=
  [ { category := .legal, severity := .high, confidence := 0.9 }
  , { category := .financial, severity := .low, confidence := 0.7 } ]

/-- The same scenario as a backend response fed to the frontend conversion. -/
def respScenario : SearchResponse :=
  { company_name := "ScenarioCo"
    search_date := "2025-07-03T00:00:00Z"
    results :=
      [ { source := "BOE"
          date := "2025-07-01T00:00:00Z"
          title := "Court ruling"
          risk_level := "High-Legal"
          confidence := 0.9
          url := "https://example.com/a" }
      , { source := "News"
          date := "2025-07-02T00:00:00Z"
          title := "Quarterly results"
          risk_level := "Low-Financial"
          confidence := 0.7
          url := "https://example.com/b" } ] }

/-- C5: for one High-Legal signal (confidence 0.9) and one Low-Financial
signal (confidence 0.7), the aggregated profile has Legal High, Financial
Low and overall High; the traffic light is red, and the frontend conversion
of the corresponding backend response is likewise "red". -/
theorem c5_scenario_profile_red :
    categorySeverity signalsScenario Category.legal = Severity.high ∧
    categorySeverity signalsScenario Category.financial = Severity.low ∧
    overallSeverity signalsScenario = Severity.high ∧
    trafficLightOf (overallSeverity signalsScenario) = "red" ∧
    (convertSearchResponse respScenario).overall = "red" := by
  refine ⟨?_, ?_, ?_, ?_, ?_⟩ <;> rfl

/-- Modelled from the spec: the phase of one `get_or_compute` caller for a
fixed fingerprint (spec §4.4) — not yet arrived, awaiting the in-flight
computation, or finished holding a vector. -/
inductive CallerPhase (V : Type) where
  | idle : CallerPhase V
  | waiting : CallerPhase V
  | done : V → CallerPhase V

/-- Modelled from the spec: the shared state of the Embedding Cache for one
fingerprint (spec §4.4): the cached vector if present, whether a computation
is in flight, the phase of each caller, and how many underlying computations
have been triggered. -/
structure CacheState (V : Type) where
  cache : Option V
  inFlight : Bool
  callers : List (CallerPhase V)
  computeCount : Nat

/-- The initial cache state for `n` concurrent callers of the same
fingerprint: nothing cached, nothing in flight, every caller idle. -/
def initCacheState (V : Type) (n : Nat) : CacheState V :=
  { cache := none, inFlight := false
    callers := List.replicate n CallerPhase.idle, computeCount := 0 }

/-- Modelled from the spec: one interleaving step of `get_or_compute` for a
fixed fingerprint whose `compute_fn` yields `vfp` (spec §4.4). An arriving
caller returns the cached vector if present, otherwise awaits the in-flight
computation or, when none is in flight, triggers the single computation; a
finishing computation persists its vector and releases the guard; a waiting
caller resumes with the cached vector. -/
inductive CacheStep {V : Type} (vfp : V) : CacheState V → CacheState V → Prop where
  | hitCache (s : CacheState V) (i : Nat) (v : V) :
      s.callers.get? i = some CallerPhase.idle →
      s.cache = some v →
      CacheStep vfp s { s with callers := s.callers.set i (CallerPhase.done v) }
  | joinWait (s : CacheState V) (i : Nat) :
      s.callers.get? i = some CallerPhase.idle →
      s.cache = none →
      s.inFlight = true →
      CacheStep vfp s { s with callers := s.callers.set i CallerPhase.waiting }
  | startCompute (s : CacheState V) (i : Nat) :
      s.callers.get? i = some CallerPhase.idle →
      s.cache = none →
      s.inFlight = false →
      CacheStep vfp s
        { s with callers := s.callers.set i CallerPhase.waiting
                 inFlight := true
                 computeCount := s.computeCount + 1 }
  | finishCompute (s : CacheState V) :
      s.inFlight = true →
      CacheStep vfp s { s with cache := some vfp, inFlight := false }
  | wake (s : CacheState V) (i : Nat) (v : V) :
      s.callers.get? i = some CallerPhase.waiting →
      s.cache = some v →
      CacheStep vfp s { s with callers := s.callers.set i (CallerPhase.done v) }

/-- States reachable from `n` concurrent callers of `get_or_compute` on the
same fingerprint. -/
inductive CacheReachable {V : Type} (vfp : V) (n : Nat) : CacheState V → Prop where
  | init : CacheReachable vfp n (initCacheState V n)
  | step {s t : CacheState V} :
      CacheReachable vfp n s → CacheStep vfp s t → CacheReachable vfp n t

/-- The inductive invariant of the cache transition system: at most one
computation has been triggered, the cache only ever holds the fingerprint's
vector, the computation counter is zero while the guard is free and the cache
empty, and every finished caller holds the fingerprint's vector. -/
def CacheInv {V : Type} (vfp : V) (s : CacheState V) : Prop :=
  s.computeCount ≤ 1 ∧
  (s.cache = none ∨ s.cache = some vfp) ∧
  (s.inFlight = false ∧ s.cache = none → s.computeCount = 0) ∧
  (∀ p ∈ s.callers, ∀ v : V, p = CallerPhase.done v → v = vfp)

/-- Elements of a list after `List.set` are the inserted element or elements
of the original list. -/
lemma mem_of_mem_set {α : Type} {l : List α} {i : Nat} {a b : α}
    (h : a ∈ l.set i b) : a ∈ l ∨ a = b := by
  induction l generalizing i with
  | nil => simp [List.set] at h
  | cons c cs ih =>
    cases i with
    | zero =>
      rw [List.set] at h
      rcases List.mem_cons.mp h with h | h
      · exact Or.inr h
      · exact Or.inl (List.mem_cons_of_mem c h)
    | succ j =>
      rw [List.set] at h
      rcases List.mem_cons.mp h with h | h
      · exact Or.inl (List.mem_cons.mpr (Or.inl h))
      · rcases ih h with h | h
        · exact Or.inl (List.mem_cons_of_mem c h)
        · exact Or.inr h

/-- Every step of the cache transition system preserves the invariant. -/
lemma cacheStep_inv {V : Type} {vfp : V} {s t : CacheState V}
    (hinv : CacheInv vfp s) (hstep : CacheStep vfp s t) : CacheInv vfp t := by
  obtain ⟨h1, h2, h3, h4⟩ := hinv
  cases hstep with
  | hitCache i v hi hc =>
    refine ⟨h1, h2, ?_, ?_⟩
    · intro hfc
      exact h3 hfc
    · intro p hp w hw
      rcases mem_of_mem_set hp with hp | hp
      · exact h4 p hp w hw
      · subst hp
        cases hw
        rcases h2 with h2 | h2
        · rw [hc] at h2
          exact Option.noConfusion h2
        · rw [hc] at h2
          exact (Option.some.inj h2).symm ▸ rfl
  | joinWait i hi hc hf =>
    refine ⟨h1, h2, h3, ?_⟩
    intro p hp w hw
    rcases mem_of_mem_set hp with hp | hp
    · exact h4 p hp w hw
    · subst hp
      exact CallerPhase.noConfusion hw
  | startCompute i hi hc hf =>
    refine ⟨?_, Or.inl hc, ?_, ?_⟩
    · have h0 : s.computeCount = 0 := h3 ⟨hf, hc⟩
      show s.computeCount + 1 ≤ 1
      omega
    · intro hcontra
      exact absurd hcontra.1 (by simp)
    · intro p hp w hw
      rcases mem_of_mem_set hp with hp | hp
      · exact h4 p hp w hw
      · subst hp
        exact CallerPhase.noConfusion hw
  | finishCompute hf =>
    refine ⟨h1, Or.inr rfl, ?_, h4⟩
    intro hcontra
    exact absurd hcontra.2 (by simp)
  | wake i v hi hc =>
    refine ⟨h1, h2, ?_, ?_⟩
    · intro hfc
      exact h3 hfc
    · intro p hp w hw
      rcases mem_of_mem_set hp with hp | hp
      · exact h4 p hp w hw
      · subst hp
        cases hw
        rcases h2 with h2 | h2
        · rw [hc] at h2
          exact Option.noConfusion h2
        · rw [hc] at h2
          exact (Option.some.inj h2).symm ▸ rfl

/-- Every reachable cache state satisfies the invariant. -/
lemma cacheReachable_inv {V : Type} {vfp : V} {n : Nat} {s : CacheState V}
    (h : CacheReachable vfp n s) : CacheInv vfp s := by
  induction h with
  | init =>
    refine ⟨Nat.zero_le 1, Or.inl rfl, fun _ => rfl, ?_⟩
    intro p hp v hv
    have := List.eq_of_mem_replicate hp
    subst this
    exact CallerPhase.noConfusion hv
  | step _ hstep ih => exact cacheStep_inv ih hstep

/-- C8: in every interleaving of `n` concurrent `get_or_compute` callers for
the same fingerprint, at most one underlying computation is triggered, and
every caller that has finished received the fingerprint's single vector
`vfp` — concurrent callers await the single in-flight computation instead of
duplicating work. -/
theorem c8_get_or_compute_single_flight {V : Type} (vfp : V) (n : Nat)
    (s : CacheState V) (h : CacheReachable vfp n s) :
    s.computeCount ≤ 1 ∧
    ∀ p ∈ s.callers, ∀ v : V, p = CallerPhase.done v → v = vfp := by
  have hinv := cacheReachable_inv h
  exact ⟨hinv.1, hinv.2.2.2⟩

/-- C8 witness: the theorem applied to the initial state of two concurrent
callers with vector 42. -/
theorem c8_get_or_compute_single_flight_witness :
    (initCacheState Nat 2).computeCount ≤ 1 ∧
    ∀ p ∈ (initCacheState Nat 2).callers, ∀ v : Nat,
      p = CallerPhase.done v → v = 42 :=
  c8_get_or_compute_single_flight 42 2 (initCacheState Nat 2)
    CacheReachable.init
